import Mathlib

/-!
Verification of the result-aggregation and classification engine of
`dashboard/dashboard_builder.py` (class `_ResultHolder`).

The Python module is embedded shallowly:

* `Package` is identified by its install name (a string); equality is by
  install name, as in the Python `package.Package` class.
* `Status` models the `compatibility_store.Status` enumeration.  Modelled
  from the spec: the enumeration lives in the external `compatibility_lib`
  collaborator; the spec lists the variants SUCCESS, INSTALL_ERROR,
  CHECK_WARNING, UNKNOWN_ERROR, UNKNOWN, each carrying its own name as its
  string value (`Status.name` and `Status.value` coincide).
* Python dictionaries become association lists; a dictionary lookup that
  would raise `KeyError` becomes `Option.none`, so every operation that can
  raise returns an `Option`.
* The dictionary keyed by `frozenset` of two packages becomes an
  association list whose lookup matches a key in either component order,
  which is exactly the observable behaviour of a frozenset key for the
  two-element queries the code performs.
* The static configuration (`configs.PKG_LIST` and
  `configs.PKG_PY_VERSION_NOT_SUPPORTED`) is a parameter `Config` of the
  holder.  Modelled from the spec: the configuration table is supplied by
  the external `compatibility_lib.configs` module; the spec describes it as
  a full package catalog list plus a per-Python-major-version (2 and 3)
  list of unsupported install names.
-/

/-- The Python string method `lower`, applied in the source only to the
ASCII status values of the store enumeration; on such strings it lowercases
each character.  Implemented over the character list so that concrete
instances reduce. -/
def str_lower (s : String) : String := ⟨s.data.map Char.toLower⟩

/-- Whether the string `s` ends with `tail`, used to state the spec phrase
about status types ending in a given tag.  Implemented over the character
list so that concrete instances reduce. -/
def str_ends_with (s tail : String) : Bool := tail.data.isSuffixOf s.data

/-- A package, identified by its install name.  Equality and hashing are by
install name, matching the Python class used as dictionary key. -/
structure Package where
  install_name : String
deriving DecidableEq, Repr

/-- Modelled from the spec: the `compatibility_store.Status` enumeration of
the external compatibility store, with the variants the spec enumerates. -/
inductive Status where
  | SUCCESS
  | INSTALL_ERROR
  | CHECK_WARNING
  | UNKNOWN_ERROR
  | UNKNOWN
deriving DecidableEq, Repr

/-- Modelled from the spec: the string value of a status; in the store
enumeration each member carries its own name as value. -/
def Status.value : Status → String
  | .SUCCESS => "SUCCESS"
  | .INSTALL_ERROR => "INSTALL_ERROR"
  | .CHECK_WARNING => "CHECK_WARNING"
  | .UNKNOWN_ERROR => "UNKNOWN_ERROR"
  | .UNKNOWN => "UNKNOWN"

/-- Modelled from the spec: `Status.name` coincides with `Status.value` for
this enumeration. -/
def Status.name (s : Status) : String := s.value

/-- One recorded outcome of an installation attempt, as produced by the
external checker and store (`compatibility_store.CompatibilityResult`). -/
structure CompatibilityResult where
  packages : List Package
  status : Status
  details : Option String
  python_major_version : Nat
deriving DecidableEq, Repr

/-- Modelled from the spec: the static configuration table of
`compatibility_lib.configs` — the full package catalog (`PKG_LIST`) and the
per-Python-major-version lists of unsupported install names
(`PKG_PY_VERSION_NOT_SUPPORTED`, keyed by 2 and 3). -/
structure Config where
  pkg_list : List String
  not_supported_py2 : List String
  not_supported_py3 : List String
deriving DecidableEq, Repr

/-- Lookup in the `PKG_PY_VERSION_NOT_SUPPORTED` table.  The Python dict has
exactly the keys 2 and 3 and is only ever indexed with those keys. -/
def Config.pyNotSupported (c : Config) (v : Nat) : List String :=
  if v = 2 then c.not_supported_py2
  else if v = 3 then c.not_supported_py3
  else []

/-- One entry of a classification result list: the Python dict
`{'status': ..., 'self': ..., 'details': ...}`.  The `details` key is absent
from the synthetic SUCCESS/UNKNOWN entries and present on entries copied
from a raw result, so `details` is an `Option (Option String)`: `none`
means the key is absent, `some d` means the key is present with value `d`
(itself optional, since a raw result may carry no details string).
Dictionary equality in Python compares the key sets too, which this
representation preserves. -/
structure CheckEntry where
  status : String
  self : Bool
  details : Option (Option String) := none
deriving DecidableEq, Repr

/-- The module-level constant `SELF_SUCCESS = {'status': 'SUCCESS',
'self': True}` (no details key). -/
def SELF_SUCCESS : CheckEntry := { status := "SUCCESS", self := true }

/-- The output dict of `get_result`: a status-type tag plus the self and
pairwise entry lists. -/
structure ClassificationResult where
  status_type : String
  self_compatibility_check : List CheckEntry
  pairwise_compatibility_check : List CheckEntry
deriving DecidableEq, Repr

/-- The state held by `_ResultHolder`: the configuration, the two result
mappings supplied by the store, and the raw per-package deprecated
dependency lists as yielded by the external deprecated-dependency finder
(each item pairs an install name with its list of deprecated deps). -/
structure ResultHolder where
  cfg : Config
  package_to_results : List (Package × List CompatibilityResult)
  pairwise_to_results : List ((Package × Package) × List CompatibilityResult)
  deprecated_raw : List (String × List String)
deriving DecidableEq, Repr

/-- Dictionary lookup `self._package_to_results[p]`; `none` models the
`KeyError` raised for a package outside the indexed set. -/
def ResultHolder.selfResults (h : ResultHolder) (p : Package) :
    Option (List CompatibilityResult) :=
  (h.package_to_results.find? (fun e => e.1 = p)).map (fun e => e.2)

/-- Whether an association-list key, read as the frozenset of its two
components, equals the frozenset `{a, b}`.  For the distinct-package
queries the code performs this is exactly frozenset equality. -/
def pairKeyMatches (k : Package × Package) (a b : Package) : Bool :=
  (k.1 = a && k.2 = b) || (k.1 = b && k.2 = a)

/-- Dictionary lookup `self._pairwise_to_results[frozenset([a, b])]`;
`none` models the `KeyError` for an unindexed pair. -/
def ResultHolder.pairResults (h : ResultHolder) (a b : Package) :
    Option (List CompatibilityResult) :=
  (h.pairwise_to_results.find? (fun e => pairKeyMatches e.1 a b)).map (fun e => e.2)

/-- `_ResultHolder._is_py_version_incompatible`: a result is a known
Python-version incompatibility when its status is INSTALL_ERROR and for
some version in [2, 3] and some package of the result, the recorded python
major version equals that version and the install name of the package is
in that version's not-supported list. -/
def is_py_version_incompatible (cfg : Config) (result : CompatibilityResult) : Bool :=
  if result.status = Status.INSTALL_ERROR then
    [2, 3].any (fun version =>
      result.packages.any (fun pkg =>
        result.python_major_version = version &&
          (cfg.pyNotSupported version).contains pkg.install_name))
  else
    false

/-- The per-result test of the two failure scans in `get_result`: the
result is charged as a failure when it is not excluded by the
Python-version-incompatibility rule and its status is not SUCCESS. -/
def scanSelects (cfg : Config) (pr : CompatibilityResult) : Bool :=
  !is_py_version_incompatible cfg pr && pr.status != Status.SUCCESS

/-- The entry appended by a failure scan for a selected result. -/
def scanEntry (selfFlag : Bool) (pr : CompatibilityResult) : CheckEntry :=
  { status := pr.status.value, self := selfFlag, details := some pr.details }

/-- One step of a failure scan of `get_result`: on a selected result,
append its entry to the accumulated list and overwrite the status type with
the tag prefix plus the lowercased status value; otherwise leave the state
unchanged. -/
def scanStep (cfg : Config) (selfFlag : Bool) (tag : String)
    (acc : List CheckEntry × String) (pr : CompatibilityResult) :
    List CheckEntry × String :=
  if scanSelects cfg pr then
    (acc.1 ++ [scanEntry selfFlag pr], tag ++ str_lower pr.status.value)
  else
    acc

/-- `_ResultHolder.get_result`.  Returns `none` exactly where the Python
code raises `KeyError` on one of its three dictionary lookups.  The Python
comparison `status_type is 'self-success'` is modelled as string equality:
within the function the only reachable values of `status_type` are the
literals and strings of the form prefix plus a lowercased non-SUCCESS
status value, none of which is a distinct string equal to
`"self-success"`, so identity and equality agree. -/
def ResultHolder.get_result (h : ResultHolder) (package_1 package_2 : Package) :
    Option ClassificationResult := do
  let results_1 ← h.selfResults package_1
  let results_2 ← h.selfResults package_2
  let init : List CheckEntry × String :=
    if results_1.isEmpty || results_2.isEmpty then
      ([{ status := Status.UNKNOWN.name, self := true }], "self-unknown")
    else
      ([], "self-success")
  let package_results := results_1 ++ results_2
  let selfScan := package_results.foldl (scanStep h.cfg true "self-") init
  if package_1 = package_2 then
    let self_result :=
      if selfScan.1.isEmpty then [{ status := Status.SUCCESS.name, self := true }]
      else selfScan.1
    pure { status_type := selfScan.2,
           self_compatibility_check := self_result,
           pairwise_compatibility_check := [] }
  else do
    let pairwise_results ← h.pairResults package_1 package_2
    let pinit : List CheckEntry × String :=
      if pairwise_results.isEmpty then
        ([{ status := Status.UNKNOWN.name, self := false }], "pairwise-unknown")
      else
        ([], selfScan.2)
    let pairScan := pairwise_results.foldl (scanStep h.cfg false "pairwise-") pinit
    if pairScan.1.isEmpty then
      pure { status_type :=
               if pairScan.2 = "self-success" then "pairwise-success" else pairScan.2,
             self_compatibility_check := selfScan.1,
             pairwise_compatibility_check :=
               [{ status := Status.SUCCESS.name, self := false }] }
    else
      pure { status_type := pairScan.2,
             self_compatibility_check := selfScan.1,
             pairwise_compatibility_check := pairScan.1 }

/-- The loop of `_ResultHolder.has_issues` over the keys of
`self._package_to_results`, with early return on the first issue found;
`none` models a propagated `KeyError` from `get_result`. -/
def ResultHolder.has_issuesAux (h : ResultHolder) (p : Package) :
    List Package → Option Bool
  | [] => some false
  | package_2 :: rest =>
    match h.get_result p package_2, h.get_result package_2 package_2 with
    | some p_and_package_2_result, some package_2_self_res =>
      let package_2_self_conflict : Bool :=
        !decide (SELF_SUCCESS ∈ package_2_self_res.self_compatibility_check)
      if p_and_package_2_result.pairwise_compatibility_check.any
          (fun result => !package_2_self_conflict && result.status != "SUCCESS") then
        some true
      else
        h.has_issuesAux p rest
    | _, _ => none

/-- `_ResultHolder.has_issues`: true when some pairwise classification of
`p` against a requested package reports a non-SUCCESS pairwise entry and
that other package has no self conflict. -/
def ResultHolder.has_issues (h : ResultHolder) (p : Package) : Option Bool :=
  h.has_issuesAux p (h.package_to_results.map (fun e => e.1))

/-- Insertion into a string-keyed Python dictionary: replace the value of
an existing key in place, otherwise append the new binding. -/
def dictInsert {α : Type} (m : List (String × α)) (k : String) (v : α) :
    List (String × α) :=
  if m.any (fun e => e.1 = k) then
    m.map (fun e => if e.1 = k then (k, v) else e)
  else
    m ++ [(k, v)]

/-- `_ResultHolder.get_deprecated_deps`: from the finder output, build the
dict mapping each package name to its deprecated-dependency list paired
with the boolean saying whether that list is non-empty. -/
def get_deprecated_deps (raw : List (String × List String)) :
    List (String × (List String × Bool)) :=
  raw.foldl (fun results item =>
    dictInsert results item.1 (item.2, !item.2.isEmpty)) []

/-- `_ResultHolder.has_deprecated_deps`: the boolean of the cached
deprecated-deps dict at the install name of the package; `none` models the
`KeyError` for a name absent from the dict. -/
def ResultHolder.has_deprecated_deps (h : ResultHolder) (p : Package) :
    Option Bool :=
  ((get_deprecated_deps h.deprecated_raw).find?
      (fun e => e.1 = p.install_name)).map (fun e => e.2.2)

/-- `_ResultHolder.needs_update`: the Python body is `pass`, returning
`None`, which is falsy wherever the result is used; modelled as the
constant false. -/
def ResultHolder.needs_update (_h : ResultHolder) (_p : Package) : Bool :=
  false

/-- The counting loop of `_ResultHolder.get_statistics` over the given
packages, threading the three counters; `none` models a propagated
`KeyError`. -/
def ResultHolder.get_statisticsAux (h : ResultHolder) :
    List Package → Nat → Nat → Nat → Option (Nat × Nat × Nat)
  | [], conflicts, deprecated, updates => some (conflicts, deprecated, updates)
  | pkg :: rest, conflicts, deprecated, updates =>
    match h.has_issues pkg, h.has_deprecated_deps pkg with
    | some hi, some hd =>
      h.get_statisticsAux rest
        (if hi then conflicts + 1 else conflicts)
        (if hd then deprecated + 1 else deprecated)
        (if h.needs_update pkg then updates + 1 else updates)
    | _, _ => none

/-- `_ResultHolder.get_statistics`: the catalog size together with the
three counters tallied over the given packages. -/
def ResultHolder.get_statistics (h : ResultHolder) (packages : List Package) :
    Option (Nat × Nat × Nat × Nat) :=
  (h.get_statisticsAux packages 0 0 0).map
    (fun t => (h.cfg.pkg_list.length, t.1, t.2.1, t.2.2))

/-! Closed forms of the pieces of `get_result`, used to state and prove the
properties; each is shown equal to the corresponding part of the fold. -/

/-- The entries a failure scan appends over a whole list. -/
def selectedEntries (cfg : Config) (flag : Bool) (l : List CompatibilityResult) :
    List CheckEntry :=
  (l.filter (scanSelects cfg)).map (scanEntry flag)

/-- The last result of `l`, in scan order, that the failure scan selects. -/
def lastSelected (cfg : Config) (l : List CompatibilityResult) :
    Option CompatibilityResult :=
  l.reverse.find? (scanSelects cfg)

/-- The status type a failure scan leaves, starting from `st`. -/
def scanStatus (cfg : Config) (tag st : String) (l : List CompatibilityResult) :
    String :=
  match lastSelected cfg l with
  | some pr => tag ++ str_lower pr.status.value
  | none => st

/-- The step-1 self entries of `get_result`: the synthetic UNKNOWN entry
exactly when either self-result list is empty. -/
def step1Entries (r1 r2 : List CompatibilityResult) : List CheckEntry :=
  if r1.isEmpty || r2.isEmpty then [{ status := "UNKNOWN", self := true }] else []

/-- The status type after step 1 of `get_result`. -/
def step1Status (r1 r2 : List CompatibilityResult) : String :=
  if r1.isEmpty || r2.isEmpty then "self-unknown" else "self-success"

/-- The self entry list of `get_result` before the synthetic-success rule
of the self branch. -/
def selfEntriesOf (cfg : Config) (r1 r2 : List CompatibilityResult) :
    List CheckEntry :=
  step1Entries r1 r2 ++ selectedEntries cfg true (r1 ++ r2)

/-- The status type of `get_result` after the self-failure scan. -/
def selfStatusOf (cfg : Config) (r1 r2 : List CompatibilityResult) : String :=
  scanStatus cfg "self-" (step1Status r1 r2) (r1 ++ r2)

/-- The pairwise entry list of `get_result` for distinct packages whose
pairwise lookup returned `prs`. -/
def pairEntriesOf (cfg : Config) (prs : List CompatibilityResult) :
    List CheckEntry :=
  if prs.isEmpty then [{ status := "UNKNOWN", self := false }]
  else if (selectedEntries cfg false prs).isEmpty then
    [{ status := "SUCCESS", self := false }]
  else selectedEntries cfg false prs

/-- The final status type of `get_result` for distinct packages, where `st`
is the status type the self-failure scan left. -/
def pairStatusOf (cfg : Config) (st : String) (prs : List CompatibilityResult) :
    String :=
  if prs.isEmpty then "pairwise-unknown"
  else
    match lastSelected cfg prs with
    | some pr => "pairwise-" ++ str_lower pr.status.value
    | none => if st = "self-success" then "pairwise-success" else st

/-! Concrete data used by the witnesses and counterexamples: two packages
`A` and `B`, where `A` has the single successful self result `resA`, `B`
has no self result, and the pair has an empty pairwise result list. -/

/-- Example package `A`. -/
def pkgA : Package := ⟨"pkg-a"⟩

/-- Example package `B`. -/
def pkgB : Package := ⟨"pkg-b"⟩

/-- A successful self result for `A`. -/
def resA : CompatibilityResult := ⟨[pkgA], Status.SUCCESS, none, 3⟩

/-- An example configuration with an empty catalog restriction. -/
def cfg0 : Config := ⟨["pkg-a", "pkg-b"], [], []⟩

/-- The holder of the worked example of the spec: `A` has self results
`[SUCCESS]`, `B` has self results `[]`, and the pairwise list of the pair
is present but empty. -/
def holder0 : ResultHolder :=
  ⟨cfg0, [(pkgA, [resA]), (pkgB, [])], [((pkgA, pkgB), [])], []⟩

/-- A package whose install name is absent from every example index. -/
def pkgX : Package := ⟨"pkg-x"⟩

/-- A configuration whose python-2 not-supported list holds one name. -/
def cfg2 : Config := ⟨[], ["legacy-pkg"], []⟩

/-- An INSTALL_ERROR result recorded under python major version 2 for the
package named in the python-2 not-supported list of `cfg2`. -/
def pr2 : CompatibilityResult :=
  ⟨[⟨"legacy-pkg"⟩], Status.INSTALL_ERROR, none, 2⟩

/-- A check-warning self result for `A`. -/
def resWarn : CompatibilityResult :=
  ⟨[pkgA], Status.CHECK_WARNING, some "warned", 3⟩

/-- An install-error self result for `A`. -/
def resErr : CompatibilityResult :=
  ⟨[pkgA], Status.INSTALL_ERROR, some "failed", 3⟩

/-- A holder whose single package has a warning and then an error among its
self results. -/
def holderFail : ResultHolder :=
  ⟨cfg0, [(pkgA, [resWarn, resErr])], [], []⟩

/-- A successful self result for `B`. -/
def resB : CompatibilityResult := ⟨[pkgB], Status.SUCCESS, none, 3⟩

/-- A successful pairwise result for the pair of `A` and `B`. -/
def resAB : CompatibilityResult := ⟨[pkgA, pkgB], Status.SUCCESS, none, 3⟩

/-- A holder where every self and pairwise check succeeded. -/
def holderOK : ResultHolder :=
  ⟨cfg0, [(pkgA, [resA]), (pkgB, [resB])], [((pkgA, pkgB), [resAB])], []⟩

/-- The all-success holder extended with deprecated-dependency data: `A`
has none, `B` has one deprecated dependency. -/
def holderStats : ResultHolder :=
  ⟨cfg0, [(pkgA, [resA]), (pkgB, [resB])], [((pkgA, pkgB), [resAB])],
    [("pkg-a", []), ("pkg-b", ["dep-old"])]⟩

/-! General lemmas about the failure-scan fold. -/

/-- The entry list a failure scan accumulates: the initial entries followed
by one entry per selected result, in scan order. -/
theorem foldl_scanStep_fst (cfg : Config) (flag : Bool) (tag : String) :
    ∀ (l : List CompatibilityResult) (acc : List CheckEntry) (st : String),
      (l.foldl (scanStep cfg flag tag) (acc, st)).1 =
        acc ++ selectedEntries cfg flag l := by
  intro l
  induction l with
  | nil => intro acc st; simp [selectedEntries]
  | cons x xs ih =>
    intro acc st
    by_cases hx : scanSelects cfg x = true
    · simp only [List.foldl_cons, scanStep, hx, if_true, ih, selectedEntries,
        List.filter_cons, List.map_cons, List.map_append, List.filter_append]
      simp [selectedEntries, hx, List.append_assoc]
    · simp only [List.foldl_cons, scanStep, hx, if_false]
      simp [ih, selectedEntries, List.filter_cons, hx]

/-- The status type a failure scan leaves: the tag plus the lowercased
value of the last selected result, or the initial status when none is
selected. -/
theorem foldl_scanStep_snd (cfg : Config) (flag : Bool) (tag : String) :
    ∀ (l : List CompatibilityResult) (acc : List CheckEntry) (st : String),
      (l.foldl (scanStep cfg flag tag) (acc, st)).2 =
        scanStatus cfg tag st l := by
  intro l
  induction l with
  | nil => intro acc st; simp [scanStatus, lastSelected]
  | cons x xs ih =>
    intro acc st
    have hrev : (x :: xs).reverse = xs.reverse ++ [x] := by simp
    by_cases hx : scanSelects cfg x = true
    · simp only [List.foldl_cons, scanStep, hx, if_true]
      rw [ih]
      simp only [scanStatus, lastSelected, hrev, List.find?_append]
      cases hfind : xs.reverse.find? (scanSelects cfg) with
      | none => simp [List.find?, hx]
      | some pr => simp
    · simp only [List.foldl_cons, scanStep, hx, if_false]
      rw [ih]
      simp only [scanStatus, lastSelected, hrev, List.find?_append]
      cases hfind : xs.reverse.find? (scanSelects cfg) with
      | none => simp [List.find?, hx]
      | some pr => simp

/-- A self-result lookup succeeds exactly for the keys of the requested
mapping. -/
theorem selfResults_isSome_iff (h : ResultHolder) (p : Package) :
    (h.selfResults p).isSome = true ↔
      p ∈ h.package_to_results.map (fun e => e.1) := by
  simp only [ResultHolder.selfResults, Option.isSome_map', List.find?_isSome,
    List.mem_map, decide_eq_true_eq]

/-- No result is selected exactly when the selected-entry list is empty. -/
theorem lastSelected_eq_none_iff (cfg : Config) (l : List CompatibilityResult) :
    lastSelected cfg l = none ↔ l.filter (scanSelects cfg) = [] := by
  simp only [lastSelected, List.find?_eq_none, List.filter_eq_nil_iff,
    List.mem_reverse]

/-- The selected-entry list is empty exactly when the filter is. -/
theorem selectedEntries_eq_nil_iff (cfg : Config) (flag : Bool)
    (l : List CompatibilityResult) :
    selectedEntries cfg flag l = [] ↔ l.filter (scanSelects cfg) = [] := by
  simp [selectedEntries]

/-- Closed form of `get_result` on a self query. -/
theorem get_result_self_eq (h : ResultHolder) (p : Package)
    (rs : List CompatibilityResult) (h1 : h.selfResults p = some rs) :
    h.get_result p p = some
      { status_type := selfStatusOf h.cfg rs rs,
        self_compatibility_check :=
          if (selfEntriesOf h.cfg rs rs).isEmpty then [SELF_SUCCESS]
          else selfEntriesOf h.cfg rs rs,
        pairwise_compatibility_check := [] } := by
  have hinit :
      (if rs.isEmpty || rs.isEmpty then
        ([({ status := Status.UNKNOWN.name, self := true } : CheckEntry)],
          "self-unknown")
      else ([], "self-success")) = (step1Entries rs rs, step1Status rs rs) := by
    by_cases hre : rs = [] <;>
      simp [step1Entries, step1Status, hre, Status.name, Status.value]
  simp only [ResultHolder.get_result, h1, Option.bind_eq_bind, Option.some_bind,
    if_pos rfl, hinit]
  rw [show ((rs ++ rs).foldl (scanStep h.cfg true "self-")
      (step1Entries rs rs, step1Status rs rs)) =
      (((rs ++ rs).foldl (scanStep h.cfg true "self-")
        (step1Entries rs rs, step1Status rs rs)).1,
       ((rs ++ rs).foldl (scanStep h.cfg true "self-")
        (step1Entries rs rs, step1Status rs rs)).2) from rfl]
  rw [foldl_scanStep_fst, foldl_scanStep_snd]
  simp only [selfEntriesOf, selfStatusOf, SELF_SUCCESS, Status.name, Status.value]
  rfl

/-- A failure-scan fold, as one equation on the pair. -/
theorem foldl_scanStep_eq (cfg : Config) (flag : Bool) (tag : String)
    (l : List CompatibilityResult) (acc : List CheckEntry) (st : String) :
    l.foldl (scanStep cfg flag tag) (acc, st) =
      (acc ++ selectedEntries cfg flag l, scanStatus cfg tag st l) := by
  have heta : l.foldl (scanStep cfg flag tag) (acc, st) =
      ((l.foldl (scanStep cfg flag tag) (acc, st)).1,
       (l.foldl (scanStep cfg flag tag) (acc, st)).2) := rfl
  rw [heta, foldl_scanStep_fst, foldl_scanStep_snd]

/-- Closed form of `get_result` on a distinct-package query. -/
theorem get_result_ne_eq (h : ResultHolder) (p1 p2 : Package)
    (r1 r2 prs : List CompatibilityResult) (hne : p1 ≠ p2)
    (h1 : h.selfResults p1 = some r1) (h2 : h.selfResults p2 = some r2)
    (hp : h.pairResults p1 p2 = some prs) :
    h.get_result p1 p2 = some
      { status_type := pairStatusOf h.cfg (selfStatusOf h.cfg r1 r2) prs,
        self_compatibility_check := selfEntriesOf h.cfg r1 r2,
        pairwise_compatibility_check := pairEntriesOf h.cfg prs } := by
  have hinit :
      (if r1.isEmpty || r2.isEmpty then
        ([({ status := Status.UNKNOWN.name, self := true } : CheckEntry)],
          "self-unknown")
      else ([], "self-success")) = (step1Entries r1 r2, step1Status r1 r2) := by
    by_cases hre : (r1.isEmpty || r2.isEmpty) = true
    · simp only [step1Entries, step1Status, hre, if_true]
      simp [Status.name, Status.value]
    · simp only [step1Entries, step1Status, hre, if_false]
      simp [Status.name, Status.value]
  by_cases hemp : prs = []
  · subst hemp
    simp only [ResultHolder.get_result, h1, h2, Option.bind_eq_bind,
      Option.some_bind, if_neg hne, hp, hinit, foldl_scanStep_eq,
      List.isEmpty_nil, if_true, List.foldl_nil, List.isEmpty_cons,
      Bool.false_eq_true, if_false]
    simp [pairStatusOf, pairEntriesOf, selfEntriesOf, selfStatusOf,
      Status.name, Status.value]
  · have hempb : prs.isEmpty = false := by
      simpa [List.isEmpty_iff] using hemp
    simp only [ResultHolder.get_result, h1, h2, Option.bind_eq_bind,
      Option.some_bind, if_neg hne, hp, hinit, foldl_scanStep_eq, hempb,
      Bool.false_eq_true, if_false, List.nil_append]
    by_cases hsel : selectedEntries h.cfg false prs = []
    · have hlast : lastSelected h.cfg prs = none := by
        rw [lastSelected_eq_none_iff]
        exact (selectedEntries_eq_nil_iff h.cfg false prs).mp hsel
      simp only [hsel, List.isEmpty_nil, if_true]
      simp [pairStatusOf, pairEntriesOf, scanStatus, hlast, hempb, hemp, hsel,
        selfStatusOf, selfEntriesOf, Status.name, Status.value]
    · have hlast : lastSelected h.cfg prs ≠ none := by
        intro hnone
        exact hsel ((selectedEntries_eq_nil_iff h.cfg false prs).mpr
          ((lastSelected_eq_none_iff h.cfg prs).mp hnone))
      rcases hlast2 : lastSelected h.cfg prs with _ | pr
      · exact absurd hlast2 hlast
      have hselb : (selectedEntries h.cfg false prs).isEmpty = false := by
        simpa [List.isEmpty_iff] using hsel
      simp only [hselb, Bool.false_eq_true, if_false]
      simp [pairStatusOf, pairEntriesOf, scanStatus, hlast2, hempb, hemp, hsel,
        selfStatusOf, selfEntriesOf]

/-- The frozenset-keyed pairwise lookup is order independent. -/
theorem pairResults_symm (h : ResultHolder) (a b : Package) :
    h.pairResults a b = h.pairResults b a := by
  have hfun : (fun (e : (Package × Package) × List CompatibilityResult) =>
      pairKeyMatches e.1 a b) = (fun e => pairKeyMatches e.1 b a) := by
    funext e
    simp only [pairKeyMatches]
    exact Bool.or_comm _ _
  simp only [ResultHolder.pairResults, hfun]

/-- Every entry a failure scan appends carries a details key. -/
theorem selectedEntries_details (cfg : Config) (flag : Bool)
    (l : List CompatibilityResult) :
    ∀ e ∈ selectedEntries cfg flag l, ∃ d, e.details = some d := by
  intro e he
  rcases List.mem_map.mp he with ⟨pr, _, hpr⟩
  exact ⟨pr.details, by rw [← hpr]; rfl⟩

/-- The step-1 UNKNOWN entry is in the pre-synthetic self list exactly when
either self-result list is empty. -/
theorem unknown_mem_selfEntriesOf_iff (cfg : Config)
    (r1 r2 : List CompatibilityResult) :
    ({ status := "UNKNOWN", self := true } : CheckEntry) ∈
        selfEntriesOf cfg r1 r2 ↔ (r1 = [] ∨ r2 = []) := by
  constructor
  · intro hmem
    rcases List.mem_append.mp hmem with hmem | hmem
    · by_contra hno
      push_neg at hno
      have : step1Entries r1 r2 = [] := by
        simp [step1Entries, hno.1, hno.2]
      rw [this] at hmem
      exact absurd hmem (List.not_mem_nil _)
    · rcases selectedEntries_details cfg true (r1 ++ r2) _ hmem with ⟨d, hd⟩
      exact absurd hd (by simp)
  · intro hor
    have : step1Entries r1 r2 =
        [{ status := "UNKNOWN", self := true }] := by
      rcases hor with hor | hor <;> simp [step1Entries, hor]
    exact List.mem_append.mpr (Or.inl (by rw [this]; exact List.mem_singleton.mpr rfl))

/-- When the final status type of a distinct-package classification ends in
the success tag, every pairwise entry reports SUCCESS. -/
theorem pairEntries_success_of_status (cfg : Config) (st : String)
    (prs : List CompatibilityResult)
    (hst : str_ends_with (pairStatusOf cfg st prs) "-success" = true) :
    ∀ e ∈ pairEntriesOf cfg prs, e.status = "SUCCESS" := by
  intro e he
  by_cases hemp : prs = []
  · exfalso
    rw [hemp] at hst
    simp only [pairStatusOf, List.isEmpty_nil, if_true] at hst
    exact absurd hst (by decide)
  · have hempb : prs.isEmpty = false := by simpa [List.isEmpty_iff] using hemp
    rcases hlast : lastSelected cfg prs with _ | pr
    · have hsel : selectedEntries cfg false prs = [] :=
        (selectedEntries_eq_nil_iff cfg false prs).mpr
          ((lastSelected_eq_none_iff cfg prs).mp hlast)
      simp only [pairEntriesOf, hempb, Bool.false_eq_true, if_false, hsel,
        List.isEmpty_nil, if_true] at he
      rw [List.mem_singleton.mp he]
    · exfalso
      have hprsel : scanSelects cfg pr = true := List.find?_some hlast
      have hprne : pr.status ≠ Status.SUCCESS := by
        intro hs
        simp [scanSelects, hs] at hprsel
      simp only [pairStatusOf, hempb, Bool.false_eq_true, if_false, hlast] at hst
      cases hcase : pr.status <;> rw [hcase] at hst hprne <;>
        first
        | exact hprne rfl
        | exact absurd hst (by simp [Status.value, str_lower, str_ends_with]; decide)

/-- C1 counterexample: in the spec scenario (A with self results
[SUCCESS], B with self results [], pairwise results [] for the pair), the
query on A and B does record a step-1 self-level UNKNOWN entry even though
the self-result list of A is non-empty, while returning statusType
pairwise-unknown; the claim asserts no self UNKNOWN entry is recorded. -/
theorem c1_counterexample :
    holder0.selfResults pkgA = some [resA] ∧
    resA.status = Status.SUCCESS ∧
    holder0.selfResults pkgB = some [] ∧
    holder0.pairResults pkgA pkgB = some [] ∧
    holder0.get_result pkgA pkgB = some
      { status_type := "pairwise-unknown",
        self_compatibility_check := [{ status := "UNKNOWN", self := true }],
        pairwise_compatibility_check := [{ status := "UNKNOWN", self := false }] } := by
  decide

/-- C1 (amended): for every query, a step-1 self-level UNKNOWN entry is
recorded exactly when at least one of the two self-result lists is empty;
in the scenario of the claim the query on A and B therefore records a self
UNKNOWN entry while still returning statusType pairwise-unknown. -/
theorem c1_step1_unknown_recorded_iff (h : ResultHolder) (p1 p2 : Package)
    (r1 r2 : List CompatibilityResult) (res : ClassificationResult)
    (h1 : h.selfResults p1 = some r1) (h2 : h.selfResults p2 = some r2)
    (hres : h.get_result p1 p2 = some res) :
    (({ status := "UNKNOWN", self := true } : CheckEntry) ∈
        res.self_compatibility_check ↔ (r1 = [] ∨ r2 = [])) := by
  by_cases heq : p1 = p2
  · subst heq
    have hrr : r1 = r2 := by rw [h1] at h2; exact Option.some.inj h2
    subst hrr
    have hmaster := get_result_self_eq h p1 r1 h1
    rw [hres] at hmaster
    obtain rfl := Option.some.inj hmaster
    by_cases hse : selfEntriesOf h.cfg r1 r1 = []
    · have hstep : r1 ≠ [] := by
        intro hnil
        apply hse ▸ (by simp [selfEntriesOf, step1Entries, hnil] :
          selfEntriesOf h.cfg r1 r1 ≠ [])
        rfl
      simp only [hse, List.isEmpty_nil, if_true]
      constructor
      · intro hmem
        exact absurd (List.mem_singleton.mp hmem) (by decide)
      · rintro (hnil | hnil) <;> exact absurd hnil hstep
    · have hseb : (selfEntriesOf h.cfg r1 r1).isEmpty = false := by
        simpa [List.isEmpty_iff] using hse
      simp only [hseb, Bool.false_eq_true, if_false]
      simpa using unknown_mem_selfEntriesOf_iff h.cfg r1 r1
  · cases hp : h.pairResults p1 p2 with
    | none =>
      exfalso
      simp [ResultHolder.get_result, h1, h2, heq, hp] at hres
    | some prs =>
      have hmaster := get_result_ne_eq h p1 p2 r1 r2 prs heq h1 h2 hp
      rw [hres] at hmaster
      obtain rfl := Option.some.inj hmaster
      simpa using unknown_mem_selfEntriesOf_iff h.cfg r1 r2

/-- C1 witness: the amended rule instantiated on the concrete scenario. -/
theorem c1_witness :
    (({ status := "UNKNOWN", self := true } : CheckEntry) ∈
      ({ status_type := "pairwise-unknown",
         self_compatibility_check := [{ status := "UNKNOWN", self := true }],
         pairwise_compatibility_check :=
           [{ status := "UNKNOWN", self := false }] } :
        ClassificationResult).self_compatibility_check) ↔
      ([resA] = [] ∨ ([] : List CompatibilityResult) = []) :=
  c1_step1_unknown_recorded_iff holder0 pkgA pkgB [resA] []
    { status_type := "pairwise-unknown",
      self_compatibility_check := [{ status := "UNKNOWN", self := true }],
      pairwise_compatibility_check := [{ status := "UNKNOWN", self := false }] }
    (by decide) (by decide) (by decide)

/-- C2: in both failure scans a result leaves the scan state untouched,
given its status is not SUCCESS, exactly when the Python-version
incompatibility rule excludes it; and that rule holds exactly when the
status is INSTALL_ERROR and some version v among 2 and 3 equals the
recorded python major version with some package of the result whose
install name is in the not-supported list of v. -/
theorem c2_exclusion_iff (cfg : Config) (pr : CompatibilityResult) :
    (is_py_version_incompatible cfg pr = true ↔
      (pr.status = Status.INSTALL_ERROR ∧ ∃ v, (v = 2 ∨ v = 3) ∧
        pr.python_major_version = v ∧
        ∃ p ∈ pr.packages, p.install_name ∈ cfg.pyNotSupported v)) ∧
    (∀ (flag : Bool) (tag : String) (acc : List CheckEntry) (st : String),
      pr.status ≠ Status.SUCCESS →
        (scanStep cfg flag tag (acc, st) pr = (acc, st) ↔
          is_py_version_incompatible cfg pr = true)) := by
  constructor
  · by_cases hs : pr.status = Status.INSTALL_ERROR
    · simp only [is_py_version_incompatible, hs, if_true, List.any_eq_true,
        Bool.and_eq_true, decide_eq_true_eq, true_and]
      constructor
      · rintro ⟨v, hv, p, hp, hmaj, hname⟩
        refine ⟨v, ?_, hmaj, p, hp, List.elem_iff.mp hname⟩
        simpa using hv
      · rintro ⟨v, hv, hmaj, p, hp, hname⟩
        exact ⟨v, by simpa using hv, p, hp, hmaj, List.elem_iff.mpr hname⟩
    · simp [is_py_version_incompatible, hs]
  · intro flag tag acc st hns
    by_cases hinc : is_py_version_incompatible cfg pr = true
    · have hsel : scanSelects cfg pr = false := by
        simp [scanSelects, hinc]
      simp [scanStep, hsel, hinc]
    · have hsel : scanSelects cfg pr = true := by
        simp only [scanSelects, Bool.and_eq_true, Bool.not_eq_true',
          bne_iff_ne, ne_eq]
        exact ⟨by simpa using hinc, hns⟩
      simp only [scanStep, hsel, if_true]
      constructor
      · intro heq
        have := congrArg (fun x => x.1.length) heq
        simp at this
      · intro htrue
        exact absurd htrue hinc

/-- C2 witness: an INSTALL_ERROR result under python major version 2 for a
package in the version-2 not-supported list is excluded from the self scan
although its status is not SUCCESS. -/
theorem c2_witness :
    scanStep cfg2 true "self-" ([], "self-success") pr2 = ([], "self-success") := by
  have hrule := (c2_exclusion_iff cfg2 pr2).2 true "self-" [] "self-success"
    (by decide)
  exact hrule.mpr ((c2_exclusion_iff cfg2 pr2).1.mpr
    ⟨rfl, 2, Or.inl rfl, rfl, ⟨"legacy-pkg"⟩, by decide, by decide⟩)

/-- C3: a self query on a package whose non-empty self-result list holds
only SUCCESS results yields exactly one self entry, that entry reports
SUCCESS with the self flag, and the status type is self-success. -/
theorem c3_all_success_self (h : ResultHolder) (p : Package)
    (rs : List CompatibilityResult) (h1 : h.selfResults p = some rs)
    (hne : rs ≠ []) (hall : ∀ r ∈ rs, r.status = Status.SUCCESS) :
    h.get_result p p = some
      { status_type := "self-success",
        self_compatibility_check := [SELF_SUCCESS],
        pairwise_compatibility_check := [] } := by
  have hfilter : (rs ++ rs).filter (scanSelects h.cfg) = [] := by
    rw [List.filter_eq_nil_iff]
    intro r hr
    have hrs : r ∈ rs := by
      rcases List.mem_append.mp hr with hr | hr <;> exact hr
    simp [scanSelects, hall r hrs]
  have hsel : selfEntriesOf h.cfg rs rs = [] := by
    have hstep : step1Entries rs rs = [] := by simp [step1Entries, hne]
    have := (selectedEntries_eq_nil_iff h.cfg true (rs ++ rs)).mpr hfilter
    simp [selfEntriesOf, hstep, this]
  have hstatus : selfStatusOf h.cfg rs rs = "self-success" := by
    have hlast : lastSelected h.cfg (rs ++ rs) = none :=
      (lastSelected_eq_none_iff h.cfg (rs ++ rs)).mpr hfilter
    simp [selfStatusOf, scanStatus, hlast, step1Status, hne]
  rw [get_result_self_eq h p rs h1, hstatus, hsel]
  rfl

/-- C3 witness: the all-success rule on the example package A. -/
theorem c3_witness :
    holder0.get_result pkgA pkgA = some
      { status_type := "self-success",
        self_compatibility_check := [SELF_SUCCESS],
        pairwise_compatibility_check := [] } :=
  c3_all_success_self holder0 pkgA [resA] (by decide) (by decide)
    (by intro r hr; rw [List.mem_singleton.mp hr]; rfl)

/-- C4: a self query on a package with an empty self-result list yields a
self UNKNOWN entry and status type self-unknown, whatever else the index
holds. -/
theorem c4_empty_self_unknown (h : ResultHolder) (p : Package)
    (h1 : h.selfResults p = some []) :
    h.get_result p p = some
      { status_type := "self-unknown",
        self_compatibility_check := [{ status := "UNKNOWN", self := true }],
        pairwise_compatibility_check := [] } := by
  have hmaster := get_result_self_eq h p [] h1
  have hsel : selfEntriesOf h.cfg [] [] =
      [{ status := "UNKNOWN", self := true }] := by
    simp [selfEntriesOf, step1Entries, selectedEntries]
  have hstatus : selfStatusOf h.cfg [] [] = "self-unknown" := by
    simp [selfStatusOf, scanStatus, lastSelected, step1Status]
  rw [hsel, hstatus] at hmaster
  simpa using hmaster

/-- C4 witness: the empty-list rule on the example package B. -/
theorem c4_witness :
    holder0.get_result pkgB pkgB = some
      { status_type := "self-unknown",
        self_compatibility_check := [{ status := "UNKNOWN", self := true }],
        pairwise_compatibility_check := [] } :=
  c4_empty_self_unknown holder0 pkgB (by decide)

/-- The step-1 entries do not depend on the order of the two lists. -/
theorem step1Entries_comm (r1 r2 : List CompatibilityResult) :
    step1Entries r2 r1 = step1Entries r1 r2 := by
  simp only [step1Entries, Bool.or_comm]

/-- The scan entries of a concatenation, in order. -/
theorem selectedEntries_append (cfg : Config) (flag : Bool)
    (l1 l2 : List CompatibilityResult) :
    selectedEntries cfg flag (l1 ++ l2) =
      selectedEntries cfg flag l1 ++ selectedEntries cfg flag l2 := by
  simp [selectedEntries, List.filter_append]

/-- C5: for distinct packages the classification of the swapped query also
succeeds, with an identical pairwise check list and a self check list that
is a permutation (same multiset, order possibly swapped at the
concatenation point). -/
theorem c5_symmetry (h : ResultHolder) (p1 p2 : Package)
    (res : ClassificationResult) (hne : p1 ≠ p2)
    (ha : h.get_result p1 p2 = some res) :
    ∃ res', h.get_result p2 p1 = some res' ∧
      res'.pairwise_compatibility_check = res.pairwise_compatibility_check ∧
      res'.self_compatibility_check.Perm res.self_compatibility_check := by
  cases e1 : h.selfResults p1 with
  | none => exfalso; simp [ResultHolder.get_result, e1] at ha
  | some r1 =>
  cases e2 : h.selfResults p2 with
  | none => exfalso; simp [ResultHolder.get_result, e1, e2] at ha
  | some r2 =>
  cases ep : h.pairResults p1 p2 with
  | none => exfalso; simp [ResultHolder.get_result, e1, e2, hne, ep] at ha
  | some prs =>
  have hmaster := get_result_ne_eq h p1 p2 r1 r2 prs hne e1 e2 ep
  rw [ha] at hmaster
  obtain rfl := Option.some.inj hmaster
  have ep' : h.pairResults p2 p1 = some prs := by
    rw [pairResults_symm]; exact ep
  have hmaster' := get_result_ne_eq h p2 p1 r2 r1 prs (Ne.symm hne) e2 e1 ep'
  refine ⟨_, hmaster', rfl, ?_⟩
  simp only [selfEntriesOf, step1Entries_comm r1 r2, selectedEntries_append]
  exact List.Perm.append_left _ List.perm_append_comm

/-- C5 witness: symmetry on the example pair. -/
theorem c5_witness :
    ∃ res', holder0.get_result pkgB pkgA = some res' ∧
      res'.pairwise_compatibility_check =
        ({ status_type := "pairwise-unknown",
           self_compatibility_check := [{ status := "UNKNOWN", self := true }],
           pairwise_compatibility_check :=
             [{ status := "UNKNOWN", self := false }] } :
          ClassificationResult).pairwise_compatibility_check ∧
      res'.self_compatibility_check.Perm
        ({ status_type := "pairwise-unknown",
           self_compatibility_check := [{ status := "UNKNOWN", self := true }],
           pairwise_compatibility_check :=
             [{ status := "UNKNOWN", self := false }] } :
          ClassificationResult).self_compatibility_check :=
  c5_symmetry holder0 pkgA pkgB
    { status_type := "pairwise-unknown",
      self_compatibility_check := [{ status := "UNKNOWN", self := true }],
      pairwise_compatibility_check := [{ status := "UNKNOWN", self := false }] }
    (by decide) (by decide)

/-- C6: on a self query whose self-result list has a last non-excluded
non-SUCCESS result pr (in scan order), the returned status type is the
string self- followed by the lowercased status value of pr: later scanned
failures overwrite the tag with no severity ranking. -/
theorem c6_last_match_wins (h : ResultHolder) (p : Package)
    (rs : List CompatibilityResult) (pr : CompatibilityResult)
    (res : ClassificationResult)
    (h1 : h.selfResults p = some rs)
    (hlast : lastSelected h.cfg rs = some pr)
    (hres : h.get_result p p = some res) :
    res.status_type = "self-" ++ str_lower pr.status.value := by
  have hmaster := get_result_self_eq h p rs h1
  rw [hres] at hmaster
  obtain rfl := Option.some.inj hmaster
  have hlast2 : lastSelected h.cfg (rs ++ rs) = some pr := by
    simp only [lastSelected, List.reverse_append, List.find?_append]
    simp only [lastSelected] at hlast
    rw [hlast]
    rfl
  simp [selfStatusOf, scanStatus, hlast2]

/-- C6 witness: a warning followed by an install error yields status type
self-install_error. -/
theorem c6_witness :
    ({ status_type := "self-install_error",
       self_compatibility_check :=
         [{ status := "CHECK_WARNING", self := true, details := some (some "warned") },
          { status := "INSTALL_ERROR", self := true, details := some (some "failed") },
          { status := "CHECK_WARNING", self := true, details := some (some "warned") },
          { status := "INSTALL_ERROR", self := true, details := some (some "failed") }],
       pairwise_compatibility_check := [] } :
      ClassificationResult).status_type = "self-" ++ str_lower resErr.status.value :=
  c6_last_match_wins holderFail pkgA [resWarn, resErr] resErr
    { status_type := "self-install_error",
      self_compatibility_check :=
        [{ status := "CHECK_WARNING", self := true, details := some (some "warned") },
         { status := "INSTALL_ERROR", self := true, details := some (some "failed") },
         { status := "CHECK_WARNING", self := true, details := some (some "warned") },
         { status := "INSTALL_ERROR", self := true, details := some (some "failed") }],
      pairwise_compatibility_check := [] }
    (by decide) (by decide) (by decide)

/-- C7: a package q of the index whose every classification against a
distinct requested package returns a status type ending in -success has no
issues. -/
theorem c7_no_issues_of_success (h : ResultHolder) (q : Package)
    (hq : q ∈ h.package_to_results.map (fun e => e.1))
    (hsucc : ∀ r ∈ h.package_to_results.map (fun e => e.1), r ≠ q →
      ∃ res, h.get_result q r = some res ∧
        str_ends_with res.status_type "-success" = true) :
    h.has_issues q = some false := by
  obtain ⟨rsq, hrsq⟩ := Option.isSome_iff_exists.mp
    ((selfResults_isSome_iff h q).mpr hq)
  have main : ∀ ks : List Package,
      (∀ r ∈ ks, r ∈ h.package_to_results.map (fun e => e.1)) →
      h.has_issuesAux q ks = some false := by
    intro ks
    induction ks with
    | nil => intro _; rfl
    | cons k rest ih =>
      intro hks
      have hkmem : k ∈ h.package_to_results.map (fun e => e.1) :=
        hks k (List.mem_cons_self k rest)
      obtain ⟨rsk, hrsk⟩ := Option.isSome_iff_exists.mp
        ((selfResults_isSome_iff h k).mpr hkmem)
      have hkk := get_result_self_eq h k rsk hrsk
      have hrest : ∀ r ∈ rest, r ∈ h.package_to_results.map (fun e => e.1) :=
        fun r hr => hks r (List.mem_cons_of_mem k hr)
      by_cases hkq : k = q
      · subst hkq
        have hqk : h.selfResults k = some rsq := hrsq
        have hqq := get_result_self_eq h k rsq hqk
        simp only [ResultHolder.has_issuesAux, hqq, List.any_nil,
          Bool.false_eq_true, if_false]
        exact ih hrest
      · obtain ⟨res, hres, hst⟩ := hsucc k hkmem hkq
        cases ep : h.pairResults q k with
        | none =>
          exfalso
          have hneq : q ≠ k := fun hc => hkq hc.symm
          simp [ResultHolder.get_result, hrsq, hrsk, hneq, ep] at hres
        | some prs =>
          have hmaster := get_result_ne_eq h q k rsq rsk prs
            (fun hc => hkq hc.symm) hrsq hrsk ep
          rw [hres] at hmaster
          obtain rfl := Option.some.inj hmaster
          have hallsucc := pairEntries_success_of_status h.cfg
            (selfStatusOf h.cfg rsq rsk) prs (by simpa using hst)
          have hany : ∀ e ∈ pairEntriesOf h.cfg prs,
              ¬ ((!(!decide (SELF_SUCCESS ∈
                  (if (selfEntriesOf h.cfg rsk rsk).isEmpty then [SELF_SUCCESS]
                   else selfEntriesOf h.cfg rsk rsk)) ) &&
                e.status != "SUCCESS") = true) := by
            intro e he
            simp [hallsucc e he]
          simp only [ResultHolder.has_issuesAux, hres, hkk]
          rw [List.any_eq_false.mpr hany]
          simp only [Bool.false_eq_true, if_false]
          exact ih hrest
  exact main (h.package_to_results.map (fun e => e.1)) (fun r hr => hr)

/-- C7 witness: the all-success holder reports no issues for A. -/
theorem c7_witness : holderOK.has_issues pkgA = some false := by
  apply c7_no_issues_of_success holderOK pkgA (by decide)
  intro r hr hne
  have hr2 : r = pkgA ∨ r = pkgB := by
    simpa [holderOK, pkgA, pkgB] using hr
  rcases hr2 with rfl | rfl
  · exact absurd rfl hne
  · exact ⟨{ status_type := "pairwise-success",
             self_compatibility_check := [],
             pairwise_compatibility_check :=
               [{ status := "SUCCESS", self := false }] },
      by decide, by decide⟩

/-- Bounds of the counting loop of get_statistics: each counter grows by at
most one per package and the needs-update counter never grows. -/
theorem get_statisticsAux_spec (h : ResultHolder) :
    ∀ (pkgs : List Package) (a b c a2 b2 c2 : Nat),
      h.get_statisticsAux pkgs a b c = some (a2, b2, c2) →
      a2 ≤ a + pkgs.length ∧ b2 ≤ b + pkgs.length ∧ c2 = c := by
  intro pkgs
  induction pkgs with
  | nil =>
    intro a b c a2 b2 c2 hst
    simp only [ResultHolder.get_statisticsAux, Option.some.injEq,
      Prod.mk.injEq] at hst
    obtain ⟨rfl, rfl, rfl⟩ := hst
    simp
  | cons pkg rest ih =>
    intro a b c a2 b2 c2 hst
    simp only [ResultHolder.get_statisticsAux] at hst
    cases hi : h.has_issues pkg with
    | none => rw [hi] at hst; simp at hst
    | some bi =>
      cases hd : h.has_deprecated_deps pkg with
      | none => rw [hi, hd] at hst; simp at hst
      | some bd =>
        rw [hi, hd] at hst
        simp only [ResultHolder.needs_update, Bool.false_eq_true,
          if_false] at hst
        have hspec := ih _ _ _ _ _ _ hst
        have hlen : (pkg :: rest).length = rest.length + 1 := by simp
        refine ⟨?_, ?_, hspec.2.2⟩
        · by_cases hbi : bi <;> simp [hbi] at hspec <;> omega
        · by_cases hbd : bd <;> simp [hbd] at hspec <;> omega

/-- C8: get_statistics reports the configured catalog size as its first
component whatever the argument, each of the other counters is bounded by
the length of the given package list, and the needing-update counter is
zero. -/
theorem c8_statistics_invariant (h : ResultHolder) (packages : List Package)
    (total conflicts deprecated updates : Nat)
    (hst : h.get_statistics packages =
      some (total, conflicts, deprecated, updates)) :
    total = h.cfg.pkg_list.length ∧ conflicts ≤ packages.length ∧
      deprecated ≤ packages.length ∧ updates = 0 := by
  simp only [ResultHolder.get_statistics] at hst
  cases haux : h.get_statisticsAux packages 0 0 0 with
  | none => rw [haux] at hst; simp at hst
  | some t =>
    rw [haux] at hst
    obtain ⟨t1, t2, t3⟩ := t
    simp only [Option.map_some', Option.some.injEq, Prod.mk.injEq] at hst
    obtain ⟨h1, h2, h3, h4⟩ := hst
    have hspec := get_statisticsAux_spec h packages 0 0 0 t1 t2 t3 haux
    refine ⟨h1.symm, ?_, ?_, ?_⟩
    · rw [← h2]; simpa using hspec.1
    · rw [← h3]; simpa using hspec.2.1
    · rw [← h4]; exact hspec.2.2

/-- C8 witness: the statistics invariant on the example holder with
deprecated-dependency data. -/
theorem c8_witness :
    2 = holderStats.cfg.pkg_list.length ∧
      0 ≤ ([pkgA, pkgB] : List Package).length ∧
      1 ≤ ([pkgA, pkgB] : List Package).length ∧ 0 = 0 :=
  c8_statistics_invariant holderStats [pkgA, pkgB] 2 0 1 0 (by decide)

/-- A string-keyed lookup succeeds exactly for the keys of the list. -/
theorem find?_key_isSome {α : Type} (m : List (String × α)) (j : String) :
    ((m.find? (fun e => e.1 = j)).isSome = true) ↔
      j ∈ m.map (fun e => e.1) := by
  simp [List.find?_isSome, List.mem_map, decide_eq_true_eq]

/-- Dictionary insertion preserves the keys, adding the new key at the end
when absent. -/
theorem dictInsert_keys {α : Type} (m : List (String × α)) (k : String) (v : α) :
    (dictInsert m k v).map (fun e => e.1) =
      if m.any (fun e => e.1 = k) then m.map (fun e => e.1)
      else m.map (fun e => e.1) ++ [k] := by
  simp only [dictInsert]
  by_cases hany : m.any (fun e => e.1 = k) = true
  · simp only [hany, if_true, List.map_map]
    apply List.map_congr_left
    intro e _
    by_cases hek : e.1 = k <;> simp [hek]
  · simp only [hany, Bool.false_eq_true, if_false, List.map_append,
      List.map_cons, List.map_nil]

/-- The keys of the derived deprecated-deps dictionary are the names the
finder yielded, on top of any accumulator keys. -/
theorem get_deprecated_deps_keys (raw : List (String × List String)) :
    ∀ (acc : List (String × (List String × Bool))) (j : String),
      (j ∈ (raw.foldl (fun results item =>
          dictInsert results item.1 (item.2, !item.2.isEmpty)) acc).map
            (fun e => e.1)) ↔
        (j ∈ acc.map (fun e => e.1) ∨ j ∈ raw.map (fun e => e.1)) := by
  induction raw with
  | nil => intro acc j; simp
  | cons it rest ih =>
    intro acc j
    simp only [List.foldl_cons]
    rw [ih, dictInsert_keys]
    by_cases hany : acc.any (fun e => e.1 = it.1) = true
    · simp only [hany, if_true, List.map_cons, List.mem_cons]
      constructor
      · rintro (hacc | hrest)
        · exact Or.inl hacc
        · exact Or.inr (Or.inr hrest)
      · rintro (hacc | rfl | hrest)
        · exact Or.inl hacc
        · rcases List.any_eq_true.mp hany with ⟨e, he, hek⟩
          exact Or.inl (List.mem_map.mpr ⟨e, he, by simpa using hek⟩)
        · exact Or.inr hrest
    · simp only [hany, Bool.false_eq_true, if_false, List.mem_append,
        List.mem_singleton, List.map_cons, List.mem_cons]
      tauto

/-- C9: the deprecated-deps flag and get_result signal a missing key
exactly for queries outside the indexed sets (the names the finder
yielded, respectively the requested packages, assuming the store supplied
a pairwise list for every pair of distinct requested packages); for
indexed queries they never fail. -/
theorem c9_key_errors (h : ResultHolder)
    (hcomplete : ∀ a b : Package,
      a ∈ h.package_to_results.map (fun e => e.1) →
      b ∈ h.package_to_results.map (fun e => e.1) → a ≠ b →
      (h.pairResults a b).isSome = true) :
    (∀ p : Package, h.has_deprecated_deps p = none ↔
      p.install_name ∉ h.deprecated_raw.map (fun e => e.1)) ∧
    (∀ p1 p2 : Package, h.get_result p1 p2 = none ↔
      (p1 ∉ h.package_to_results.map (fun e => e.1) ∨
       p2 ∉ h.package_to_results.map (fun e => e.1))) := by
  constructor
  · intro p
    have hkeys := get_deprecated_deps_keys h.deprecated_raw [] p.install_name
    simp only [List.map_nil, List.not_mem_nil, false_or] at hkeys
    rw [← hkeys, ← find?_key_isSome]
    simp only [ResultHolder.has_deprecated_deps, get_deprecated_deps]
    cases hfind : (h.deprecated_raw.foldl (fun results item =>
        dictInsert results item.1 (item.2, !item.2.isEmpty)) []).find?
          (fun e => e.1 = p.install_name) <;> simp [hfind]
  · intro p1 p2
    constructor
    · intro hnone
      by_contra hboth
      push_neg at hboth
      obtain ⟨hm1, hm2⟩ := hboth
      obtain ⟨r1, e1⟩ := Option.isSome_iff_exists.mp
        ((selfResults_isSome_iff h p1).mpr hm1)
      obtain ⟨r2, e2⟩ := Option.isSome_iff_exists.mp
        ((selfResults_isSome_iff h p2).mpr hm2)
      by_cases heq : p1 = p2
      · subst heq
        rw [get_result_self_eq h p1 r1 e1] at hnone
        exact Option.noConfusion hnone
      · obtain ⟨prs, ep⟩ := Option.isSome_iff_exists.mp
          (hcomplete p1 p2 hm1 hm2 heq)
        rw [get_result_ne_eq h p1 p2 r1 r2 prs heq e1 e2 ep] at hnone
        exact Option.noConfusion hnone
    · intro hout
      rcases hout with hout | hout
      · have e1 : h.selfResults p1 = none := by
          rw [← Option.not_isSome_iff_eq_none]
          intro hs
          exact hout ((selfResults_isSome_iff h p1).mp hs)
        simp [ResultHolder.get_result, e1]
      · have e2 : h.selfResults p2 = none := by
          rw [← Option.not_isSome_iff_eq_none]
          intro hs
          exact hout ((selfResults_isSome_iff h p2).mp hs)
        cases e1 : h.selfResults p1 with
        | none => simp [ResultHolder.get_result, e1]
        | some r1 => simp [ResultHolder.get_result, e1, e2]

/-- C9 witness: querying an unindexed package on the all-success holder
signals the missing key. -/
theorem c9_witness : holderOK.get_result pkgX pkgA = none := by
  have hcomp : ∀ a b : Package,
      a ∈ holderOK.package_to_results.map (fun e => e.1) →
      b ∈ holderOK.package_to_results.map (fun e => e.1) → a ≠ b →
      (holderOK.pairResults a b).isSome = true := by
    intro a b ha hb hne
    have ha2 : a = pkgA ∨ a = pkgB := by simpa [holderOK, pkgA, pkgB] using ha
    have hb2 : b = pkgA ∨ b = pkgB := by simpa [holderOK, pkgA, pkgB] using hb
    rcases ha2 with rfl | rfl <;> rcases hb2 with rfl | rfl
    · exact absurd rfl hne
    · decide
    · decide
    · exact absurd rfl hne
  exact ((c9_key_errors holderOK hcomp).2 pkgX pkgA).mpr
    (Or.inl (by decide))

/-- C10: when the self classification of q carries no entry equal to
SELF_SUCCESS, the has_issues iteration step for q contributes nothing for
any package p, whatever the pairwise entries between p and q report: q is
treated as self-conflicted. -/
theorem c10_self_conflict_shields (h : ResultHolder) (p q : Package)
    (rest : List Package) (res sres : ClassificationResult)
    (hres : h.get_result p q = some res)
    (hs : h.get_result q q = some sres)
    (hconf : SELF_SUCCESS ∉ sres.self_compatibility_check) :
    h.has_issuesAux p (q :: rest) = h.has_issuesAux p rest := by
  simp only [ResultHolder.has_issuesAux, hres, hs]
  have hdec : decide (SELF_SUCCESS ∈ sres.self_compatibility_check) = false := by
    simpa using hconf
  simp [hdec]

/-- C10 witness: B is self-unknown in the example holder, so the pairwise
UNKNOWN entry between A and B does not flag A. -/
theorem c10_witness :
    holder0.has_issuesAux pkgA [pkgB] = holder0.has_issuesAux pkgA [] :=
  c10_self_conflict_shields holder0 pkgA pkgB []
    { status_type := "pairwise-unknown",
      self_compatibility_check := [{ status := "UNKNOWN", self := true }],
      pairwise_compatibility_check := [{ status := "UNKNOWN", self := false }] }
    { status_type := "self-unknown",
      self_compatibility_check := [{ status := "UNKNOWN", self := true }],
      pairwise_compatibility_check := [] }
    (by decide) (by decide) (by decide)
